import Mathlib

/-!
Shallow embedding of `src/logic.py` (class `LogicSymbolGenerator`).

Strings are lists of Unicode code points (`List Nat`), matching Python's
`str` as a sequence of code points.  Python's `random.choice` / `random.randint`
are modelled by an explicit stream of natural numbers (`Rng`): each draw
consumes one stream element `k` and `random.choice(l)` picks `l[k % len(l)]`,
`random.randint(a, b)` picks `a + k % (b - a + 1)`.  Every theorem quantifying
over `Rng` therefore covers every possible sequence of random draws.

The unbounded `while` loop in `generate_novel_symbol` is given an explicit
fuel parameter; a result of `none` means the loop did not finish within the
given number of resampling steps (for no amount of fuel, in the divergence
theorems).  `unicodedata.category` is external library behaviour: it is a
parameter of `is_valid_symbol`, and the concrete table `ucd` records the
actual Unicode general categories of the code points the generator handles.
-/

/-- Sequence of pseudo-random draws together with a cursor, modelling the
stream of values produced by Python's `random` module during a run. -/
structure Rng where
  seq : Nat → Nat
  idx : Nat

def Rng.next (r : Rng) : Nat × Rng :=
  (r.seq r.idx, ⟨r.seq, r.idx + 1⟩)

/-- Model of `random.choice(l)`: consume one draw `k` and return `l[k % len(l)]`.
The default `d` is returned only for an empty list (Python would raise there;
all lists sampled by the program are non-empty). -/
def randChoice (l : List α) (d : α) (r : Rng) : α × Rng :=
  let (k, r1) := r.next
  (l.getD (k % l.length) d, r1)

/-- Model of `random.randint(lo, hi)` (both bounds inclusive); `none` models
the `ValueError` Python raises when `lo > hi`. -/
def randint (lo hi : Int) (r : Rng) : Option (Int × Rng) :=
  if lo ≤ hi then
    let (k, r1) := r.next
    some (lo + (k : Int) % (hi - lo + 1), r1)
  else none

/-- `SymbolCategory` dataclass from the source: name, ordered symbol list,
description.  Symbols are single code points. -/
structure SymbolCategory where
  name : String
  symbols : List Nat
  description : String
deriving DecidableEq

/-- State of a `LogicSymbolGenerator` instance: the category table, the
decorator table, the position-marker list and the generation cache
(`defaultdict(set)`, modelled as a total function returning `[]` for
absent keys; sets of strings are modelled as duplicate-free lists). -/
structure LogicSymbolGenerator where
  categories : List (String × SymbolCategory)
  decorators : List (String × Nat)
  positions : List Nat
  symbol_cache : String → List (List Nat)

/-- The category table built by `__init__` (code points of the source's
literals: letters A-F, quantifiers, connectives, modal operators,
set-theory symbols, miscellaneous symbols). -/
def initCategories : List (String × SymbolCategory) :=
  [ ("letters",
      ⟨"Letters", [0x41, 0x42, 0x43, 0x44, 0x45, 0x46],
        "Basic logical variables"⟩),
    ("quantifiers",
      ⟨"Quantifiers", [0x2200, 0x2203, 0x2204],
        "Universal and existential quantifiers"⟩),
    ("connectives",
      ⟨"Connectives", [0x2227, 0x2228, 0x2192, 0x2194, 0x2295, 0x2297],
        "Logical connectives and operators"⟩),
    ("modal",
      ⟨"Modal Operators", [0x25A1, 0x25C7, 0x25CA, 0x220E],
        "Modal logic operators"⟩),
    ("set_theory",
      ⟨"Set Theory", [0x2208, 0x2209, 0x2286, 0x2282, 0x222A, 0x2229, 0x2205],
        "Set theory operators and relations"⟩),
    ("misc",
      ⟨"Miscellaneous", [0x22A2, 0x22A8, 0x2261, 0x2260, 0x2248, 0x221D, 0x221E, 0x22A5, 0x2225],
        "Additional logical and mathematical symbols"⟩) ]

/-- The decorator table built by `__init__` (combining marks, in source order). -/
def initDecorators : List (String × Nat) :=
  [ ("overline", 0x305), ("underline", 0x332), ("tilde", 0x303),
    ("macron", 0x304), ("breve", 0x306), ("dot", 0x307),
    ("diaeresis", 0x308), ("ring", 0x30A), ("double_acute", 0x30B),
    ("caron", 0x30C) ]

/-- The position-marker list built by `__init__`: the superscript digits 0-9. -/
def initPositions : List Nat :=
  [0x2070, 0xB9, 0xB2, 0xB3, 0x2074, 0x2075, 0x2076, 0x2077, 0x2078, 0x2079]

/-- A freshly constructed `LogicSymbolGenerator` (empty cache). -/
def initGenerator : LogicSymbolGenerator :=
  { categories := initCategories
    decorators := initDecorators
    positions := initPositions
    symbol_cache := fun _ => [] }

/-- All 35 base symbols of the catalog, the concatenation of the six
category symbol lists in order (see `allBaseSymbols_eq`). -/
def allBaseSymbols : List Nat :=
  [0x41, 0x42, 0x43, 0x44, 0x45, 0x46,
   0x2200, 0x2203, 0x2204,
   0x2227, 0x2228, 0x2192, 0x2194, 0x2295, 0x2297,
   0x25A1, 0x25C7, 0x25CA, 0x220E,
   0x2208, 0x2209, 0x2286, 0x2282, 0x222A, 0x2229, 0x2205,
   0x22A2, 0x22A8, 0x2261, 0x2260, 0x2248, 0x221D, 0x221E, 0x22A5, 0x2225]

theorem allBaseSymbols_eq :
    allBaseSymbols = (initCategories.map fun p => p.2.symbols).flatten := by
  decide

/-- The fallback branch of `get_random_base`: choose a category uniformly at
random, then a symbol uniformly at random from it.  The source draws a key
from `list(self.categories.keys())` and indexes the dict; since dict keys are
unique, drawing the (key, category) entry directly is the same two-stage
sample. -/
def grbFallback (g : LogicSymbolGenerator) (r : Rng) : Nat × Rng :=
  let (entry, r1) := randChoice g.categories ("", ⟨"", [], ""⟩) r
  randChoice entry.2.symbols 0 r1

/-- `get_random_base(category)`.  `if category and category in self.categories`
is modelled by the non-empty-string test plus the lookup; otherwise the
two-stage fallback runs. -/
def get_random_base (g : LogicSymbolGenerator) (category : Option String) (r : Rng) :
    Nat × Rng :=
  match category with
  | some c =>
    if c ≠ "" then
      match g.categories.lookup c with
      | some sc => randChoice sc.symbols 0 r
      | none => grbFallback g r
    else grbFallback g r
  | none => grbFallback g r

/-- The method list `['stack', 'join', 'overlay']` sampled when no method is
given. -/
def combineMethods : List String := ["stack", "join", "overlay"]

/-- The list comprehension `[self.get_random_base() for _ in range(length)]`
of the `join` branch, sampling left to right. -/
def joinSyms (g : LogicSymbolGenerator) : Nat → Rng → List Nat × Rng
  | 0, r => ([], r)
  | n + 1, r =>
    let (b, r1) := get_random_base g none r
    let (rest, r2) := joinSyms g n r1
    (b :: rest, r2)

/-- The method resolution of `combine_symbols`: `if not method` treats both
`None` and the empty string as absent and draws a method at random, any
other string is kept as given. -/
def resolveMethod (method : Option String) (r : Rng) : String × Rng :=
  match method with
  | some m => if m = "" then randChoice combineMethods "" r else (m, r)
  | none => randChoice combineMethods "" r

/-- `combine_symbols(length, method)`.  A method string other than `'stack'`
and `'join'` falls through to the `overlay` branch via the source's trailing
`else`. -/
def combine_symbols (g : LogicSymbolGenerator) (length : Int) (method : Option String)
    (r : Rng) : List Nat × Rng :=
  if length ≤ 0 then ([], r)
  else if length = 1 then
    let (b, r1) := get_random_base g none r
    ([b], r1)
  else
    let (m, r1) := resolveMethod method r
    if m = "stack" then
      let (b, r2) := get_random_base g none r1
      let (p, r3) := randChoice g.positions 0 r2
      ([b, p], r3)
    else if m = "join" then
      joinSyms g length.toNat r1
    else
      let (b, r2) := get_random_base g none r1
      let (d, r3) := randChoice (g.decorators.map Prod.snd) 0 r2
      ([b, d], r3)

/-- Functional update of the cache: `self.symbol_cache[cache_key].add(new_symbol)`.
The caller only adds symbols that are not yet present, so the list stays
duplicate-free. -/
def updateCache (cache : String → List (List Nat)) (k : String) (s : List Nat) :
    String → List (List Nat) :=
  fun k1 => if k1 = k then s :: cache k1 else cache k1

/-- The `while new_symbol in self.symbol_cache[cache_key]` loop of
`generate_novel_symbol`, with explicit fuel: `none` means the loop was still
running after `fuel` resamplings. -/
def novelLoop (g : LogicSymbolGenerator) (length : Int) (seen : List (List Nat)) :
    Nat → List Nat → Rng → Option (List Nat × Rng)
  | 0, s, r => if s ∈ seen then none else some (s, r)
  | fuel + 1, s, r =>
    if s ∈ seen then
      let (s1, r1) := combine_symbols g length none r
      novelLoop g length seen fuel s1 r1
    else some (s, r)

/-- `generate_novel_symbol(min_length, max_length, cache_key)`.  Returns the
symbol, the updated generator and the advanced random stream; `none` models
either the `randint` error (`min > max`) or the dedup loop not terminating
within `fuel` resamplings. -/
def generate_novel_symbol (g : LogicSymbolGenerator) (minLength maxLength : Int)
    (cacheKey : String) (fuel : Nat) (r : Rng) :
    Option (List Nat × LogicSymbolGenerator × Rng) :=
  match randint minLength maxLength r with
  | none => none
  | some (length, r1) =>
    let (s0, r2) := combine_symbols g length none r1
    if cacheKey = "" then some (s0, g, r2)
    else
      match novelLoop g length (g.symbol_cache cacheKey) fuel s0 r2 with
      | none => none
      | some (s, r3) =>
        some (s, { g with symbol_cache := updateCache g.symbol_cache cacheKey s }, r3)

/-- The set `{'So', 'Sm', 'Mn', 'Me', 'Pd', 'Lu'}` of accepted Unicode general
categories. -/
def validCategories : List String := ["So", "Sm", "Mn", "Me", "Pd", "Lu"]

/-- A lone surrogate code point: the only code points a Python `str` can hold
for which `symbol.encode('utf-8')` raises a `UnicodeError`. -/
def isSurrogate (c : Nat) : Bool := 0xD800 ≤ c && c ≤ 0xDFFF

/-- `is_valid_symbol(symbol)`, parameterised by the Unicode category table
`cat` (Python's `unicodedata.category`).  The `try/except UnicodeError`
around `encode('utf-8')` becomes the surrogate test; then the length bound,
then the per-character category whitelist.  The function is total: no input
raises. -/
def is_valid_symbol (cat : Nat → String) (s : List Nat) : Bool :=
  if s.any isSurrogate then false
  else if 15 < s.length then false
  else s.all fun c => decide (cat c ∈ validCategories)

/-- The Unicode general categories of the code points the generator works
with, modelled from the Unicode character database (the behaviour of
Python's `unicodedata.category`, external to the repository): A-F are Lu,
the white square / white diamond / lozenge are So, the remaining base
symbols are Sm, the combining marks U+0300-U+036F are Mn, and the
superscript digits are No.  Other code points are irrelevant to the program
and mapped to Cn. -/
def ucd (c : Nat) : String :=
  if 0x41 ≤ c ∧ c ≤ 0x46 then "Lu"
  else if c = 0x25A1 ∨ c = 0x25C7 ∨ c = 0x25CA then "So"
  else if 0x300 ≤ c ∧ c ≤ 0x36F then "Mn"
  else if c ∈ [0x2070, 0xB9, 0xB2, 0xB3, 0x2074, 0x2075, 0x2076, 0x2077, 0x2078, 0x2079]
    then "No"
  else if c ∈ allBaseSymbols then "Sm"
  else "Cn"

/-- The cache key `f"{n}-{min_length}-{max_length}"`. -/
def cacheKeyOf (n minLength maxLength : Int) : String :=
  toString n ++ "-" ++ toString minLength ++ "-" ++ toString maxLength

/-- Python's `set.add` guarded by membership: insert only if absent, keeping
the list duplicate-free. -/
def setAdd (s : List Nat) (syms : List (List Nat)) : List (List Nat) :=
  if s ∈ syms then syms else s :: syms

/-- The `while len(symbols) < n and attempts < max_attempts` loop of
`generate_batch`: `budget` is the number of attempts still allowed
(`max_attempts - attempts`), decremented once per iteration whether or not
the candidate is accepted. -/
def batchLoop (n minLength maxLength : Int) (ck : String) (fuel : Nat) :
    Nat → List (List Nat) → LogicSymbolGenerator → Rng →
    Option (List (List Nat) × LogicSymbolGenerator × Rng)
  | 0, syms, g, r => some (syms, g, r)
  | budget + 1, syms, g, r =>
    if (syms.length : Int) < n then
      match generate_novel_symbol g minLength maxLength ck fuel r with
      | none => none
      | some (s, g1, r1) =>
        let syms1 := if is_valid_symbol ucd s then setAdd s syms else syms
        batchLoop n minLength maxLength ck fuel budget syms1 g1 r1
    else some (syms, g, r)

/-- `generate_batch(n, min_length, max_length)` (source defaults:
`n=5, min_length=1, max_length=4`): run the attempt loop with budget
`max_attempts = n * 10` starting from an empty result set. -/
def generate_batch (g : LogicSymbolGenerator) (n minLength maxLength : Int)
    (fuel : Nat) (r : Rng) :
    Option (List (List Nat) × LogicSymbolGenerator × Rng) :=
  batchLoop n minLength maxLength (cacheKeyOf n minLength maxLength) fuel
    (n * 10).toNat [] g r

/-- The read-only category listing rendered by `update_categories_display`:
name, symbols and description of each category in table order. -/
def categoriesListing (g : LogicSymbolGenerator) : List (String × List Nat × String) :=
  g.categories.map fun p => (p.2.name, p.2.symbols, p.2.description)

/-! ### Basic helper lemmas -/

theorem mem_getD {α : Type} (l : List α) (k : Nat) (d : α) (h : k < l.length) :
    l.getD k d ∈ l := by
  rw [List.getD_eq_getElem l d h]
  exact List.getElem_mem h

theorem randChoice_mem {α : Type} (l : List α) (d : α) (r : Rng) (h : l ≠ []) :
    (randChoice l d r).1 ∈ l := by
  have hlen : 0 < l.length := List.length_pos.mpr h
  exact mem_getD l _ d (Nat.mod_lt _ hlen)

/-- Characterisation of the validator, shared by several claims below. -/
theorem is_valid_iff (cat : Nat → String) (s : List Nat) :
    is_valid_symbol cat s = true ↔
      (∀ c ∈ s, isSurrogate c = false) ∧ s.length ≤ 15 ∧
        ∀ c ∈ s, cat c ∈ validCategories := by
  unfold is_valid_symbol
  split_ifs with h1 h2
  · simp only [Bool.false_eq_true, false_iff]
    rintro ⟨hs, -, -⟩
    rw [List.any_eq_true] at h1
    obtain ⟨c, hc, hsc⟩ := h1
    have := hs c hc
    simp [this] at hsc
  · simp only [Bool.false_eq_true, false_iff]
    rintro ⟨-, hl, -⟩
    omega
  · rw [List.all_eq_true]
    constructor
    · intro h
      refine ⟨?_, by omega, fun c hc => by simpa using h c hc⟩
      intro c hc
      by_contra hcs
      rw [Bool.not_eq_false] at hcs
      exact h1 (List.any_eq_true.mpr ⟨c, hc, hcs⟩)
    · rintro ⟨-, -, hcat⟩
      intro c hc
      simpa using hcat c hc

/-- Claim C3: `is_valid_symbol` never raises (it is a total Bool-valued
function of the string and the Unicode category table): it returns false
when the string is malformed (contains a lone surrogate, the one case where
Python's `encode('utf-8')` raises, caught by the `except UnicodeError`),
when the code-point length exceeds 15, or when any character's Unicode
general category is outside {So, Sm, Mn, Me, Pd, Lu}; and true otherwise. -/
theorem is_valid_symbol_total_characterisation (cat : Nat → String) (s : List Nat) :
    is_valid_symbol cat s = true ↔
      (∀ c ∈ s, isSurrogate c = false) ∧ s.length ≤ 15 ∧
        ∀ c ∈ s, cat c ∈ validCategories :=
  is_valid_iff cat s

/-- Claim C8: `get_random_base` called with a category name that is not a key
of the catalog does not fail: it behaves exactly as when no category is
given (uniform-random category, then uniform-random symbol from it). -/
theorem get_random_base_unknown_category_falls_back
    (g : LogicSymbolGenerator) (c : String) (r : Rng)
    (h : g.categories.lookup c = none) :
    get_random_base g (some c) r = get_random_base g none r := by
  unfold get_random_base
  by_cases hc : c = ""
  · simp [hc]
  · simp [hc, h]

/-- Witness for C8 at the concrete unknown category name "modality". -/
theorem get_random_base_unknown_category_falls_back_witness :
    get_random_base initGenerator (some "modality") ⟨fun _ => 0, 0⟩ =
      get_random_base initGenerator none ⟨fun _ => 0, 0⟩ :=
  get_random_base_unknown_category_falls_back initGenerator "modality"
    ⟨fun _ => 0, 0⟩ (by decide)

/-- The dedup loop returns its candidate unchanged, for any fuel, when the
candidate is not cached (Python's `while` guard fails on entry). -/
theorem novelLoop_nmem (g : LogicSymbolGenerator) (length : Int)
    (seen : List (List Nat)) (fuel : Nat) (s : List Nat) (r : Rng)
    (h : s ∉ seen) : novelLoop g length seen fuel s r = some (s, r) := by
  cases fuel <;> simp [novelLoop, h]

/-- Any symbol drawn by the category-less `get_random_base` from a generator
holding the initial catalog is one of the 35 base symbols. -/
theorem grb_mem (g : LogicSymbolGenerator) (r : Rng)
    (h : g.categories = initCategories) :
    (get_random_base g none r).1 ∈ allBaseSymbols := by
  have hne : g.categories ≠ [] := by rw [h]; decide
  have hmem : (randChoice g.categories ("", ⟨"", [], ""⟩) r).1 ∈ initCategories := by
    rw [← h]; exact randChoice_mem _ _ _ hne
  have h1 : ∀ p ∈ initCategories, p.2.symbols ≠ [] := by decide
  have h2 : ∀ p ∈ initCategories, ∀ c ∈ p.2.symbols, c ∈ allBaseSymbols := by decide
  show (grbFallback g r).1 ∈ allBaseSymbols
  have hred : grbFallback g r =
      randChoice ((randChoice g.categories ("", ⟨"", [], ""⟩) r).1).2.symbols 0
        ((randChoice g.categories ("", ⟨"", [], ""⟩) r).2) := rfl
  rw [hred]
  exact h2 _ hmem _ (randChoice_mem _ _ _ (h1 _ hmem))

/-- The `join` branch produces exactly `n` code points. -/
theorem joinSyms_length (g : LogicSymbolGenerator) :
    ∀ (n : Nat) (r : Rng), (joinSyms g n r).1.length = n := by
  intro n
  induction n with
  | zero => intro r; rfl
  | succ m ih =>
    intro r
    show ((get_random_base g none r).1 ::
      (joinSyms g m (get_random_base g none r).2).1).length = m + 1
    simp [ih]

/-- Every code point produced by the `join` branch over the initial catalog
is a base symbol. -/
theorem joinSyms_mem (g : LogicSymbolGenerator) (h : g.categories = initCategories) :
    ∀ (n : Nat) (r : Rng), ∀ c ∈ (joinSyms g n r).1, c ∈ allBaseSymbols := by
  intro n
  induction n with
  | zero => intro r c hc; simp [joinSyms] at hc
  | succ m ih =>
    intro r c hc
    have hc2 : c ∈ (get_random_base g none r).1 ::
        (joinSyms g m (get_random_base g none r).2).1 := hc
    rcases List.mem_cons.mp hc2 with h1 | h1
    · rw [h1]; exact grb_mem g r h
    · exact ih _ c h1

/-- Unfolding of `combine_symbols` for `length ≥ 2` and an explicitly given
non-empty method: no method draw is consumed and the three branches are as
in the source. -/
theorem combine_ge2 (g : LogicSymbolGenerator) (k : Int) (m : String) (r : Rng)
    (hk : 2 ≤ k) (hm : m ≠ "") :
    combine_symbols g k (some m) r =
      if m = "stack" then
        ([(get_random_base g none r).1,
          (randChoice g.positions 0 (get_random_base g none r).2).1],
         (randChoice g.positions 0 (get_random_base g none r).2).2)
      else if m = "join" then joinSyms g k.toNat r
      else
        ([(get_random_base g none r).1,
          (randChoice (g.decorators.map Prod.snd) 0 (get_random_base g none r).2).1],
         (randChoice (g.decorators.map Prod.snd) 0 (get_random_base g none r).2).2) := by
  have hr : resolveMethod (some m) r = (m, r) := by
    show (if m = "" then randChoice combineMethods "" r else (m, r)) = (m, r)
    rw [if_neg hm]
  unfold combine_symbols
  rw [if_neg (show ¬ k ≤ 0 by omega), if_neg (show ¬ k = 1 by omega), hr]

/-- Claim C5: for `k ≥ 2`, `combine(k, 'join')` returns exactly `k` code
points, each an independently sampled catalog base symbol, while
`combine(k, 'stack')` and `combine(k, 'overlay')` return exactly 2 code
points regardless of `k`. -/
theorem combine_join_stack_overlay_lengths (k : Int) (r : Rng) (hk : 2 ≤ k) :
    ((combine_symbols initGenerator k (some "join") r).1.length : Int) = k ∧
    (∀ c ∈ (combine_symbols initGenerator k (some "join") r).1, c ∈ allBaseSymbols) ∧
    (combine_symbols initGenerator k (some "stack") r).1.length = 2 ∧
    (combine_symbols initGenerator k (some "overlay") r).1.length = 2 := by
  have hj := combine_ge2 initGenerator k "join" r hk (by decide)
  have hs := combine_ge2 initGenerator k "stack" r hk (by decide)
  have ho := combine_ge2 initGenerator k "overlay" r hk (by decide)
  rw [if_neg (show ¬ ("join" : String) = "stack" by decide),
    if_pos (rfl : ("join" : String) = "join")] at hj
  rw [if_pos (rfl : ("stack" : String) = "stack")] at hs
  rw [if_neg (show ¬ ("overlay" : String) = "stack" by decide),
    if_neg (show ¬ ("overlay" : String) = "join" by decide)] at ho
  refine ⟨?_, ?_, ?_, ?_⟩
  · rw [hj, joinSyms_length]
    exact Int.toNat_of_nonneg (by omega)
  · rw [hj]
    exact joinSyms_mem initGenerator rfl k.toNat r
  · rw [hs]
    rfl
  · rw [ho]
    rfl

/-- Witness for C5 at `k = 2` with the constant-zero random stream. -/
theorem combine_join_stack_overlay_lengths_witness :
    ((combine_symbols initGenerator 2 (some "join") ⟨fun _ => 0, 0⟩).1.length : Int) = 2 ∧
    (∀ c ∈ (combine_symbols initGenerator 2 (some "join") ⟨fun _ => 0, 0⟩).1,
      c ∈ allBaseSymbols) ∧
    (combine_symbols initGenerator 2 (some "stack") ⟨fun _ => 0, 0⟩).1.length = 2 ∧
    (combine_symbols initGenerator 2 (some "overlay") ⟨fun _ => 0, 0⟩).1.length = 2 :=
  combine_join_stack_overlay_lengths 2 ⟨fun _ => 0, 0⟩ (by decide)

/-- Claim C6: for every method argument, `combine(length, method)` returns the
empty string when `length ≤ 0` (without error, same for every method), and a
single catalog base symbol when `length == 1`, again independently of the
method argument. -/
theorem combine_short_length_contract (g : LogicSymbolGenerator)
    (method method2 : Option String) (len : Int) (r : Rng) (hlen : len ≤ 0) :
    combine_symbols g len method r = ([], r) ∧
    combine_symbols g len method r = combine_symbols g len method2 r ∧
    (∃ b, (combine_symbols initGenerator 1 method r).1 = [b] ∧ b ∈ allBaseSymbols) ∧
    combine_symbols g 1 method r = combine_symbols g 1 method2 r := by
  have he : ∀ m, combine_symbols g len m r = ([], r) := by
    intro m
    unfold combine_symbols
    rw [if_pos hlen]
  have h1 : ∀ (g1 : LogicSymbolGenerator) m, combine_symbols g1 1 m r =
      ([(get_random_base g1 none r).1], (get_random_base g1 none r).2) := by
    intro g1 m
    unfold combine_symbols
    rw [if_neg (show ¬ (1 : Int) ≤ 0 by omega), if_pos (rfl : (1 : Int) = 1)]
  refine ⟨he method, by rw [he method, he method2], ?_, by rw [h1 g method, h1 g method2]⟩
  exact ⟨(get_random_base initGenerator none r).1, by rw [h1 initGenerator method],
    grb_mem initGenerator r rfl⟩

/-- Witness for C6 at `length = 0` and `length = 1` with concrete methods. -/
theorem combine_short_length_contract_witness :
    combine_symbols initGenerator 0 (some "stack") ⟨fun _ => 0, 0⟩ = ([], ⟨fun _ => 0, 0⟩) ∧
    combine_symbols initGenerator 0 (some "stack") ⟨fun _ => 0, 0⟩ =
      combine_symbols initGenerator 0 none ⟨fun _ => 0, 0⟩ ∧
    (∃ b, (combine_symbols initGenerator 1 (some "stack") ⟨fun _ => 0, 0⟩).1 = [b] ∧
      b ∈ allBaseSymbols) ∧
    combine_symbols initGenerator 1 (some "stack") ⟨fun _ => 0, 0⟩ =
      combine_symbols initGenerator 1 none ⟨fun _ => 0, 0⟩ :=
  combine_short_length_contract initGenerator (some "stack") none 0 ⟨fun _ => 0, 0⟩
    (by decide)

/-- Claim C10, amended: for `length ≥ 2`, any NON-EMPTY method string other
than 'stack' and 'join' is treated as 'overlay' (one base symbol followed by
one randomly chosen decorator combining mark); the empty string is falsy in
the source's `if not method` test, so it instead triggers random method
selection (see the counterexample `combine_empty_method_not_overlay`). -/
theorem combine_unrecognised_method_is_overlay (g : LogicSymbolGenerator)
    (k : Int) (m : String) (r : Rng) (hk : 2 ≤ k) (hm0 : m ≠ "")
    (hm1 : m ≠ "stack") (hm2 : m ≠ "join") :
    combine_symbols g k (some m) r = combine_symbols g k (some "overlay") r ∧
    ∃ b d, (combine_symbols initGenerator k (some m) r).1 = [b, d] ∧
      b ∈ allBaseSymbols ∧ d ∈ initDecorators.map Prod.snd := by
  have hmg := combine_ge2 g k m r hk hm0
  have hog := combine_ge2 g k "overlay" r hk (by decide)
  have hmi := combine_ge2 initGenerator k m r hk hm0
  rw [if_neg hm1, if_neg hm2] at hmg hmi
  rw [if_neg (show ¬ ("overlay" : String) = "stack" by decide),
    if_neg (show ¬ ("overlay" : String) = "join" by decide)] at hog
  constructor
  · rw [hmg, hog]
  · rw [hmi]
    refine ⟨_, _, rfl, grb_mem initGenerator r rfl, ?_⟩
    exact randChoice_mem (initGenerator.decorators.map Prod.snd) 0
      (get_random_base initGenerator none r).2 (by decide)

/-- Counterexample to C10 as stated: the empty string is a method argument
other than 'stack' and 'join', yet with it (and a random stream that draws
'stack') `combine` returns a base symbol followed by the position marker
U+2070 — a superscript digit, not a decorator combining mark. -/
theorem combine_empty_method_not_overlay :
    (combine_symbols initGenerator 2 (some "") ⟨fun _ => 0, 0⟩).1 = [0x41, 0x2070] ∧
    (0x2070 : Nat) ∈ initPositions ∧
    (0x2070 : Nat) ∉ initDecorators.map Prod.snd := by
  refine ⟨by decide, by decide, by decide⟩

/-- Witness for the amended C10 at the unrecognised method name "fuse". -/
theorem combine_unrecognised_method_is_overlay_witness :
    combine_symbols initGenerator 2 (some "fuse") ⟨fun _ => 0, 0⟩ =
      combine_symbols initGenerator 2 (some "overlay") ⟨fun _ => 0, 0⟩ ∧
    ∃ b d, (combine_symbols initGenerator 2 (some "fuse") ⟨fun _ => 0, 0⟩).1 = [b, d] ∧
      b ∈ allBaseSymbols ∧ d ∈ initDecorators.map Prod.snd :=
  combine_unrecognised_method_is_overlay initGenerator 2 "fuse" ⟨fun _ => 0, 0⟩
    (by decide) (by decide) (by decide) (by decide)

/-- A random stream whose first draw is `i` and whose every later draw is `j`,
used to enumerate the two draws `get_random_base` consumes. -/
def pairSeq (i j : Nat) : Nat → Nat := fun t => if t = 0 then i else j

/-- Number of draw pairs `(i, j)` in the grid `6 × 6` for which the
category-less `get_random_base` returns `target`.  The first draw selects
one of the 6 categories by `i % 6`, the second one symbol by `j % size`;
6 is a common multiple of 6 (letters) and 3 (quantifiers), so over this
grid both example symbols are sampled with their exact probabilities. -/
def twoStageCount (target : Nat) : Nat :=
  ((List.range 6).map fun i =>
    ((List.range 6).filter fun j =>
      (get_random_base initGenerator none ⟨pairSeq i j, 0⟩).1 = target).length).sum

/-- First stage of the category-less sample: the first draw `i` alone
determines the category; the result always lies in the symbol list of
category number `i % 6`. -/
theorem grb_two_stage (i j : Nat) :
    (get_random_base initGenerator none ⟨pairSeq i j, 0⟩).1 ∈
      ((initCategories.getD (i % 6) ("", ⟨"", [], ""⟩)).2).symbols := by
  have hred : (get_random_base initGenerator none ⟨pairSeq i j, 0⟩).1 =
      ((initCategories.getD (i % 6) ("", ⟨"", [], ""⟩)).2).symbols.getD
        (j % ((initCategories.getD (i % 6) ("", ⟨"", [], ""⟩)).2).symbols.length) 0 := rfl
  have hment : initCategories.getD (i % 6) ("", ⟨"", [], ""⟩) ∈ initCategories :=
    mem_getD _ _ _ (Nat.mod_lt i (by decide))
  have hpos : ∀ p ∈ initCategories, 0 < p.2.symbols.length := by decide
  rw [hred]
  exact mem_getD _ _ _ (Nat.mod_lt j (hpos _ hment))

/-- Claim C7: the category-less `get_random_base` samples in two stages —
the first draw picks one of the 6 category keys uniformly (`i % 6`), the
second a symbol uniformly inside that category — so the distribution over
the 35 distinct base symbols is biased by category: over a grid of draw
pairs that is exact for both symbols, 'A' (in the 6-symbol letters
category) is produced once while '∀' (in the 3-symbol quantifiers
category) is produced twice, where a uniform distribution over all 35
symbols would produce them equally often. -/
theorem get_random_base_two_stage_biased :
    (∀ i j : Nat, (get_random_base initGenerator none ⟨pairSeq i j, 0⟩).1 ∈
      ((initCategories.getD (i % 6) ("", ⟨"", [], ""⟩)).2).symbols) ∧
    initGenerator.categories.length = 6 ∧
    allBaseSymbols.length = 35 ∧
    allBaseSymbols.Nodup ∧
    twoStageCount 0x41 = 1 ∧
    twoStageCount 0x2200 = 2 :=
  ⟨grb_two_stage, by decide, by decide, by decide, by decide, by decide⟩

/-- Invariant of the batch loop: starting from a duplicate-free list of
validated symbols, the loop returns a duplicate-free list of validated
symbols, and it never grows the result beyond `n` (the size check guards
every insertion). -/
theorem batchLoop_invariant (n minLength maxLength : Int) (ck : String) (fuel : Nat) :
    ∀ (budget : Nat) (syms : List (List Nat)) (g : LogicSymbolGenerator) (r : Rng)
      (res : List (List Nat) × LogicSymbolGenerator × Rng),
      batchLoop n minLength maxLength ck fuel budget syms g r = some res →
      syms.Nodup → (∀ s ∈ syms, is_valid_symbol ucd s = true) →
      res.1.Nodup ∧ (∀ s ∈ res.1, is_valid_symbol ucd s = true) ∧
        ((syms.length : Int) ≤ n → (res.1.length : Int) ≤ n) := by
  intro budget
  induction budget with
  | zero =>
    intro syms g r res h hnd hv
    simp only [batchLoop, Option.some.injEq] at h
    subst h
    exact ⟨hnd, hv, fun hl => hl⟩
  | succ b ih =>
    intro syms g r res h hnd hv
    rw [batchLoop] at h
    split at h
    · rename_i hlt
      split at h
      · exact absurd h (by simp)
      · rename_i s g1 r1 hgen
        by_cases hval : is_valid_symbol ucd s = true
        · rw [if_pos hval] at h
          unfold setAdd at h
          by_cases hmem : s ∈ syms
          · rw [if_pos hmem] at h
            exact ih _ _ _ _ h hnd hv
          · rw [if_neg hmem] at h
            have hstep := ih _ _ _ _ h (List.nodup_cons.mpr ⟨hmem, hnd⟩) ?_
            · refine ⟨hstep.1, hstep.2.1, fun _ => hstep.2.2 ?_⟩
              simp only [List.length_cons]
              push_cast
              omega
            · intro x hx
              rcases List.mem_cons.mp hx with h1 | h1
              · rw [h1]; exact hval
              · exact hv x h1
        · rw [if_neg hval] at h
          exact ih _ _ _ _ h hnd hv
    · simp only [Option.some.injEq] at h
      subst h
      exact ⟨hnd, hv, fun hl => hl⟩

/-- Claim C1: for `n ≥ 1` and `1 ≤ minLength ≤ maxLength ≤ 15`, every
sequence returned by `generate_batch` has length at most `n`, its elements
are pairwise distinct, and every element passes `is_valid_symbol`.  The
quantification over `fuel` and `r` covers every terminating run under every
random stream, from any generator state. -/
theorem generate_batch_distinct_valid_bounded (g : LogicSymbolGenerator)
    (n minLength maxLength : Int) (fuel : Nat) (r : Rng)
    (hn : 1 ≤ n) (hmin : 1 ≤ minLength) (hmm : minLength ≤ maxLength)
    (hmax : maxLength ≤ 15) :
    ∀ res, generate_batch g n minLength maxLength fuel r = some res →
      (res.1.length : Int) ≤ n ∧ res.1.Nodup ∧
        ∀ s ∈ res.1, is_valid_symbol ucd s = true := by
  intro res h
  unfold generate_batch at h
  have hinv := batchLoop_invariant n minLength maxLength _ fuel _ [] g r res h
    List.nodup_nil (by simp)
  exact ⟨hinv.2.2 (by simp; omega), hinv.1, hinv.2.1⟩

/-- Witness for C1: the concrete run `generate_batch(1, 1, 1)` on a fresh
generator under the constant-zero random stream returns exactly `["A"]`. -/
theorem generate_batch_distinct_valid_bounded_witness :
    (([[0x41]] : List (List Nat)).length : Int) ≤ 1 ∧
    ([[0x41]] : List (List Nat)).Nodup ∧
    ∀ s ∈ ([[0x41]] : List (List Nat)), is_valid_symbol ucd s = true :=
  generate_batch_distinct_valid_bounded initGenerator 1 1 1 0 ⟨fun _ => 0, 0⟩
    (by decide) (by decide) (by decide) (by decide)
    ([[0x41]],
     ⟨initCategories, initDecorators, initPositions,
       updateCache (fun _ => []) (cacheKeyOf 1 1 1) [0x41]⟩,
     ⟨fun _ => 0, 3⟩) rfl

/-- Claim C4: every string produced by `combine(k, 'stack')` for `k ≥ 2` — a
base symbol followed by a superscript-digit position marker — fails
`is_valid_symbol`, because superscript digits have Unicode general category
'No', which is not in the validation whitelist; consequently no symbol in a
returned batch ever contains a position marker. -/
theorem stack_symbols_invalid_so_batches_have_no_position_markers :
    (∀ (g : LogicSymbolGenerator) (k : Int) (r : Rng),
      g.positions = initPositions → 2 ≤ k →
      is_valid_symbol ucd (combine_symbols g k (some "stack") r).1 = false) ∧
    (∀ (g : LogicSymbolGenerator) (n minLength maxLength : Int) (fuel : Nat) (r : Rng)
      (res : List (List Nat) × LogicSymbolGenerator × Rng),
      generate_batch g n minLength maxLength fuel r = some res →
      ∀ s ∈ res.1, ∀ c ∈ s, c ∉ initPositions) := by
  have hnocat : ∀ q ∈ initPositions, ucd q = "No" := by decide
  have hnotin : ("No" : String) ∉ validCategories := by decide
  constructor
  · intro g k r hpos hk
    have hs := combine_ge2 g k "stack" r hk (by decide)
    rw [if_pos (rfl : ("stack" : String) = "stack")] at hs
    rw [hs]
    show is_valid_symbol ucd
      [(get_random_base g none r).1,
       (randChoice g.positions 0 (get_random_base g none r).2).1] = false
    set p := (randChoice g.positions 0 (get_random_base g none r).2).1 with hpdef
    have h0 : p ∈ g.positions := by
      rw [hpdef]
      exact randChoice_mem g.positions 0 (get_random_base g none r).2
        (by rw [hpos]; decide)
    rw [hpos] at h0
    by_contra hcon
    rw [Bool.not_eq_false] at hcon
    obtain ⟨-, -, hcat⟩ := (is_valid_iff ucd _).mp hcon
    have hin := hcat p (by simp)
    rw [hnocat p h0] at hin
    exact hnotin hin
  · intro g n minLength maxLength fuel r res h s hs c hc hcpos
    unfold generate_batch at h
    have hinv := batchLoop_invariant n minLength maxLength _ fuel _ [] g r res h
      List.nodup_nil (by simp)
    obtain ⟨-, -, hcat⟩ := (is_valid_iff ucd s).mp (hinv.2.1 s hs)
    have hin := hcat c hc
    rw [hnocat c hcpos] at hin
    exact hnotin hin

/-- Witness for C4: a concrete stack combination fails validation, and in the
concrete batch run returning `["→"]` the returned character is not a
position marker. -/
theorem stack_symbols_invalid_witness :
    is_valid_symbol ucd
      (combine_symbols initGenerator 2 (some "stack") ⟨fun _ => 0, 0⟩).1 = false ∧
    (0x2192 : Nat) ∉ initPositions :=
  ⟨stack_symbols_invalid_so_batches_have_no_position_markers.1 initGenerator 2
    ⟨fun _ => 0, 0⟩ rfl (by decide),
   stack_symbols_invalid_so_batches_have_no_position_markers.2 initGenerator 1 1 1 0
    ⟨fun _ => 2, 0⟩
    ([[0x2192]],
     ⟨initCategories, initDecorators, initPositions,
       updateCache (fun _ => []) (cacheKeyOf 1 1 1) [0x2192]⟩,
     ⟨fun _ => 2, 3⟩) rfl [0x2192] (by decide) 0x2192 (by decide)⟩

/-- `generate_novel_symbol` leaves every field of the generator except the
cache unchanged: the returned generator is either the input itself or the
input with only `symbol_cache` replaced. -/
theorem generate_novel_symbol_frame (g : LogicSymbolGenerator)
    (minLength maxLength : Int) (ck : String) (fuel : Nat) (r : Rng)
    (res : List Nat × LogicSymbolGenerator × Rng)
    (h : generate_novel_symbol g minLength maxLength ck fuel r = some res) :
    res.2.1.categories = g.categories ∧ res.2.1.decorators = g.decorators ∧
      res.2.1.positions = g.positions := by
  unfold generate_novel_symbol at h
  split at h
  · exact absurd h (by simp)
  · split at h
    split at h
    · simp only [Option.some.injEq] at h
      subst h
      exact ⟨rfl, rfl, rfl⟩
    · split at h
      · exact absurd h (by simp)
      · simp only [Option.some.injEq] at h
        subst h
        exact ⟨rfl, rfl, rfl⟩

/-- The batch loop preserves every generator field except the cache. -/
theorem batchLoop_frame (n minLength maxLength : Int) (ck : String) (fuel : Nat) :
    ∀ (budget : Nat) (syms : List (List Nat)) (g : LogicSymbolGenerator) (r : Rng)
      (res : List (List Nat) × LogicSymbolGenerator × Rng),
      batchLoop n minLength maxLength ck fuel budget syms g r = some res →
      res.2.1.categories = g.categories ∧ res.2.1.decorators = g.decorators ∧
        res.2.1.positions = g.positions := by
  intro budget
  induction budget with
  | zero =>
    intro syms g r res h
    simp only [batchLoop, Option.some.injEq] at h
    subst h
    exact ⟨rfl, rfl, rfl⟩
  | succ b ih =>
    intro syms g r res h
    rw [batchLoop] at h
    split at h
    · split at h
      · exact absurd h (by simp)
      · rename_i s g1 r1 hgen
        have h1 := generate_novel_symbol_frame g minLength maxLength ck fuel r
          (s, g1, r1) hgen
        have h2 := ih _ _ _ _ h
        exact ⟨h2.1.trans h1.1, h2.2.1.trans h1.2.1, h2.2.2.trans h1.2.2⟩
    · simp only [Option.some.injEq] at h
      subst h
      exact ⟨rfl, rfl, rfl⟩

/-- Claim C9: neither `generate_novel_symbol` nor `generate_batch` mutates
the symbol catalog, the decorator table or the position-marker list — only
the generation cache changes — so the category listing rendered before and
after any generation call is identical.  (`combine_symbols` and
`get_random_base` return no generator at all in this embedding: by type
they cannot mutate the state.) -/
theorem generation_mutates_only_cache :
    (∀ (g : LogicSymbolGenerator) (minLength maxLength : Int) (ck : String)
      (fuel : Nat) (r : Rng) (res : List Nat × LogicSymbolGenerator × Rng),
      generate_novel_symbol g minLength maxLength ck fuel r = some res →
      res.2.1.categories = g.categories ∧ res.2.1.decorators = g.decorators ∧
        res.2.1.positions = g.positions ∧
        categoriesListing res.2.1 = categoriesListing g) ∧
    (∀ (g : LogicSymbolGenerator) (n minLength maxLength : Int) (fuel : Nat)
      (r : Rng) (res : List (List Nat) × LogicSymbolGenerator × Rng),
      generate_batch g n minLength maxLength fuel r = some res →
      res.2.1.categories = g.categories ∧ res.2.1.decorators = g.decorators ∧
        res.2.1.positions = g.positions ∧
        categoriesListing res.2.1 = categoriesListing g) := by
  constructor
  · intro g minLength maxLength ck fuel r res h
    have h1 := generate_novel_symbol_frame g minLength maxLength ck fuel r res h
    refine ⟨h1.1, h1.2.1, h1.2.2, ?_⟩
    unfold categoriesListing
    rw [h1.1]
  · intro g n minLength maxLength fuel r res h
    unfold generate_batch at h
    have h1 := batchLoop_frame n minLength maxLength _ fuel _ [] g r res h
    refine ⟨h1.1, h1.2.1, h1.2.2, ?_⟩
    unfold categoriesListing
    rw [h1.1]

/-- Witness for C9 on concrete runs of both operations under the
constant-one random stream. -/
theorem generation_mutates_only_cache_witness :
    ((⟨initCategories, initDecorators, initPositions,
        updateCache (fun _ => []) "k" [0x2203]⟩ :
          LogicSymbolGenerator).categories = initGenerator.categories ∧
      (⟨initCategories, initDecorators, initPositions,
        updateCache (fun _ => []) "k" [0x2203]⟩ :
          LogicSymbolGenerator).decorators = initGenerator.decorators ∧
      (⟨initCategories, initDecorators, initPositions,
        updateCache (fun _ => []) "k" [0x2203]⟩ :
          LogicSymbolGenerator).positions = initGenerator.positions ∧
      categoriesListing
        ⟨initCategories, initDecorators, initPositions,
          updateCache (fun _ => []) "k" [0x2203]⟩ =
        categoriesListing initGenerator) ∧
    ((⟨initCategories, initDecorators, initPositions,
        updateCache (fun _ => []) (cacheKeyOf 1 1 1) [0x2203]⟩ :
          LogicSymbolGenerator).categories = initGenerator.categories ∧
      (⟨initCategories, initDecorators, initPositions,
        updateCache (fun _ => []) (cacheKeyOf 1 1 1) [0x2203]⟩ :
          LogicSymbolGenerator).decorators = initGenerator.decorators ∧
      (⟨initCategories, initDecorators, initPositions,
        updateCache (fun _ => []) (cacheKeyOf 1 1 1) [0x2203]⟩ :
          LogicSymbolGenerator).positions = initGenerator.positions ∧
      categoriesListing
        ⟨initCategories, initDecorators, initPositions,
          updateCache (fun _ => []) (cacheKeyOf 1 1 1) [0x2203]⟩ =
        categoriesListing initGenerator) :=
  ⟨generation_mutates_only_cache.1 initGenerator 1 1 "k" 0 ⟨fun _ => 1, 0⟩
    ([0x2203],
     ⟨initCategories, initDecorators, initPositions,
       updateCache (fun _ => []) "k" [0x2203]⟩,
     ⟨fun _ => 1, 3⟩) rfl,
   generation_mutates_only_cache.2 initGenerator 1 1 1 0 ⟨fun _ => 1, 0⟩
    ([[0x2203]],
     ⟨initCategories, initDecorators, initPositions,
       updateCache (fun _ => []) (cacheKeyOf 1 1 1) [0x2203]⟩,
     ⟨fun _ => 1, 3⟩) rfl⟩

/-- One-step unfolding of the batch loop on a successor budget. -/
theorem batchLoop_succ (n minLength maxLength : Int) (ck : String) (fuel : Nat)
    (budget : Nat) (syms : List (List Nat)) (g : LogicSymbolGenerator) (r : Rng) :
    batchLoop n minLength maxLength ck fuel (budget + 1) syms g r =
      if (syms.length : Int) < n then
        match generate_novel_symbol g minLength maxLength ck fuel r with
        | none => none
        | some (s, g1, r1) =>
          batchLoop n minLength maxLength ck fuel budget
            (if is_valid_symbol ucd s then setAdd s syms else syms) g1 r1
      else some (syms, g, r) := rfl

/-- The cache key of the batch request `generate_batch(1000, 1, 1)`. -/
def ckC2 : String := cacheKeyOf 1000 1 1

/-- The cache state after the first accepted symbol "A" of that request. -/
def cacheC2 : String → List (List Nat) := updateCache (fun _ => []) ckC2 [0x41]

/-- The generator state after the first accepted symbol of that request. -/
def genC2 : LogicSymbolGenerator :=
  ⟨initCategories, initDecorators, initPositions, cacheC2⟩

/-- Under the constant-zero stream every resample of `combine_symbols(1)`
returns "A" again, so once "A" is cached the dedup loop never exits,
whatever its fuel. -/
theorem novelLoopC2 (seen : List (List Nat)) (h : [0x41] ∈ seen) :
    ∀ (fuel idx : Nat),
      novelLoop genC2 1 seen fuel [0x41] ⟨fun _ => 0, idx⟩ = none := by
  intro fuel
  induction fuel with
  | zero =>
    intro idx
    simp only [novelLoop]
    rw [if_pos h]
  | succ f ih =>
    intro idx
    simp only [novelLoop]
    rw [if_pos h]
    show novelLoop genC2 1 seen f [0x41] ⟨fun _ => 0, idx + 1 + 1⟩ = none
    exact ih (idx + 1 + 1)

/-- With "A" cached under the batch key, `generate_novel_symbol` diverges
(returns `none` for every fuel) under the constant-zero stream. -/
theorem novelC2 (fuel idx : Nat) :
    generate_novel_symbol genC2 1 1 ckC2 fuel ⟨fun _ => 0, idx⟩ = none := by
  have hloop := novelLoopC2 [[0x41]] (by decide) fuel (idx + 1 + 1 + 1)
  show (match novelLoop genC2 1 [[0x41]] fuel [0x41] ⟨fun _ => 0, idx + 1 + 1 + 1⟩ with
        | none => none
        | some (s, r3) =>
          some (s, (⟨genC2.categories, genC2.decorators, genC2.positions,
            updateCache genC2.symbol_cache ckC2 s⟩ : LogicSymbolGenerator), r3)) = none
  rw [hloop]

/-- Claim C2 fails on the code: `generate_batch(1000, 1, 1)` does NOT
terminate with at most 35 symbols.  Under the random stream that always
draws 0, the first iteration accepts and caches "A"; from the second
iteration on, the dedup loop of `generate_novel_symbol` — which has no
attempt cap — resamples "A" forever, so for EVERY fuel bound the call
returns nothing, although the result set (1 symbol) is far below `n = 1000`
and only 2 of the 10000 budgeted attempts have begun. -/
theorem generate_batch_1000_1_1_diverges (fuel : Nat) :
    generate_batch initGenerator 1000 1 1 fuel ⟨fun _ => 0, 0⟩ = none := by
  have h1 : generate_novel_symbol initGenerator 1 1 ckC2 fuel ⟨fun _ => 0, 0⟩ =
      some ([0x41], genC2, ⟨fun _ => 0, 3⟩) := by
    have hl := novelLoop_nmem initGenerator 1 [] fuel [0x41] ⟨fun _ => 0, 3⟩
      (by decide)
    show (match novelLoop initGenerator 1 [] fuel [0x41] ⟨fun _ => 0, 3⟩ with
          | none => none
          | some (s, r3) =>
            some (s, (⟨initGenerator.categories, initGenerator.decorators,
              initGenerator.positions,
              updateCache initGenerator.symbol_cache ckC2 s⟩ : LogicSymbolGenerator),
              r3)) =
        some ([0x41], genC2, ⟨fun _ => 0, 3⟩)
    rw [hl]
    rfl
  show batchLoop 1000 1 1 ckC2 fuel (9999 + 1) [] initGenerator ⟨fun _ => 0, 0⟩ = none
  rw [batchLoop_succ, h1]
  show batchLoop 1000 1 1 ckC2 fuel (9998 + 1) [[0x41]] genC2 ⟨fun _ => 0, 3⟩ = none
  rw [batchLoop_succ, novelC2 fuel 3]
  rfl
